import Mathlib

/-!
Verification of the ProsthAi metric engine (src/main.py).

The engine analyses a parsed triangulated mesh and produces four metric
results (convergence, occlusal reduction, finish line, undercuts) plus an
aggregate score.  The embedding below mirrors the four metric functions and
the aggregation in `analyze`.  Float values of the source are modelled as
exact rationals (inputs) and real numbers (derived quantities such as
`arccos` angles and standard deviations).  `np.mean` over an empty array
yields NaN in numpy; every comparison against NaN is false.  This is
modelled by `np_mean` returning `Option`: `none` stands for that NaN, and
each consumer branches on it the way NaN propagates through the source's
comparisons.
-/

set_option maxHeartbeats 1000000
set_option maxRecDepth 4000

/-- A 3-component vector with exact rational coordinates (a float triple in
the source). -/
structure Vec3 where
  x : ℚ
  y : ℚ
  z : ℚ
deriving DecidableEq

/-- The parsed mesh as the metric engine reads it: `mesh.face_normals`,
`mesh.bounds` (row 0 = min, row 1 = max) and `mesh.edges_unique_length`. -/
structure Mesh where
  face_normals : List Vec3
  bounds_min : Vec3
  bounds_max : Vec3
  edges_unique_length : List ℚ
deriving DecidableEq

/-- The status strings used by the engine. -/
inductive Status where
  | success
  | warning
  | error
deriving DecidableEq

/-- Result dictionary of `calculate_convergence`.  `value = none` models the
NaN that `round(np.degrees(np.mean([])), 1)` produces on a zero-face mesh. -/
structure ConvergenceResult where
  value : Option ℝ
  score : ℕ
  status : Status
  message : String

/-- Result dictionary of `calculate_occlusal_reduction`. -/
structure OcclusalResult where
  value : ℚ
  score : ℕ
  status : Status
  message : String
deriving DecidableEq

/-- Result dictionary of `calculate_finish_line`. -/
structure FinishLineResult where
  clarity : ℤ
  score : ℕ
  status : Status
  message : String
deriving DecidableEq

/-- Result dictionary of `detect_undercuts`. -/
structure UndercutResult where
  detected : Bool
  depth : ℚ
  score : ℕ
  status : Status
  message : String
deriving DecidableEq

/-- The response of `analyze`: aggregate score plus the four metric results. -/
structure AnalysisReport where
  score : ℕ
  convergence : ConvergenceResult
  occlusalReduction : OcclusalResult
  finishLine : FinishLineResult
  undercuts : UndercutResult

/-- Python `round(q, d)` for rational values: round to `d` decimal places. -/
def round_to (d : ℕ) (q : ℚ) : ℚ := (round (q * 10 ^ d) : ℤ) / 10 ^ d

/-- `np.clip(x, lo, hi)`. -/
noncomputable def np_clip (x lo hi : ℝ) : ℝ := min hi (max lo x)

/-- `np.mean(xs)`; `none` stands for the NaN numpy returns on an empty
array, and every comparison against it is false in the consumers. -/
noncomputable def np_mean (xs : List ℝ) : Option ℝ :=
  if xs.length = 0 then none else some (xs.sum / xs.length)

/-- `np.std(xs)` (population standard deviation, ddof = 0). -/
noncomputable def np_std (xs : List ℝ) : ℝ :=
  Real.sqrt ((xs.map (fun x => (x - xs.sum / xs.length) ^ 2)).sum / xs.length)

/-- Python `int(x)`: truncation toward zero. -/
noncomputable def trunc_int (x : ℝ) : ℤ := if 0 ≤ x then ⌊x⌋ else ⌈x⌉

/-- `round(x, d)` on real values, for the convergence value field. -/
noncomputable def round_real (d : ℕ) (x : ℝ) : ℝ := (round (x * 10 ^ d) : ℤ) / 10 ^ d

/-- `calculate_occlusal_reduction` (src/main.py lines 67-75):
`height = bounds[1][2] - bounds[0][2]`, thresholds 1.5 and 1.0. -/
def calculate_occlusal_reduction (mesh : Mesh) : OcclusalResult :=
  let height := mesh.bounds_max.z - mesh.bounds_min.z
  if 3/2 ≤ height then ⟨round_to 2 height, 95, Status.success, "Adequate reduction"⟩
  else if 1 ≤ height then ⟨round_to 2 height, 70, Status.warning, "Minimal reduction"⟩
  else ⟨round_to 2 height, 40, Status.error, "Insufficient reduction"⟩

/-- The count `np.sum(np.dot(normals, [0,0,1]) < -0.1)` of
`detect_undercuts`.  The float literal `-0.1` is modelled by the exact
rational `-1/10`: no double lies strictly between the two, so the comparison
agrees on every representable input. -/
def undercut_count (normals : List Vec3) : ℕ :=
  ((normals.map (fun n => n.z)).filter (fun d => d < -(1/10))).length

/-- `detect_undercuts` (src/main.py lines 88-98).  The float literal `0.05`
is modelled by the exact rational `1/20`. -/
def detect_undercuts (mesh : Mesh) : UndercutResult :=
  let undercut_faces := undercut_count mesh.face_normals
  if undercut_faces = 0 then
    ⟨false, 0, 100, Status.success, "No undercuts"⟩
  else if (undercut_faces : ℚ) < (mesh.face_normals.length : ℚ) * (1/20) then
    ⟨true, 1/5, 70, Status.warning, "Minor undercuts"⟩
  else ⟨true, 1/2, 40, Status.error, "Significant undercuts"⟩

/-- One entry of `np.arccos(np.clip(np.dot(normals, z_axis), -1, 1))`: the
angle for one face, from the dot product of its normal with `(0,0,1)` (which
is the z-coordinate of the normal). -/
noncomputable def face_angle (d : ℝ) : ℝ := Real.arccos (np_clip d (-1) 1)

/-- `np.degrees(np.mean(angles))` for a nonempty list of normals, written as
a total function (the source only reaches it through `np_mean`). -/
noncomputable def avg_angle_deg (normals : List Vec3) : ℝ :=
  ((normals.map (fun n => face_angle (n.z : ℝ))).sum / normals.length) * 180 / Real.pi

/-- `calculate_convergence` (src/main.py lines 55-65).  On a zero-face mesh
`np.mean` yields NaN (`none` here): both range tests `4 <= nan <= 8` and
`2 <= nan <= 12` are false, so the final branch is returned with a NaN value
field (`none`). -/
noncomputable def calculate_convergence (mesh : Mesh) : ConvergenceResult :=
  match np_mean (mesh.face_normals.map (fun n => face_angle (n.z : ℝ))) with
  | none => ⟨none, 50, Status.error, "Taper needs adjustment"⟩
  | some m =>
    let avg_angle := m * 180 / Real.pi
    if 4 ≤ avg_angle ∧ avg_angle ≤ 8 then
      ⟨some (round_real 1 avg_angle), 95, Status.success, "Ideal taper angle"⟩
    else if 2 ≤ avg_angle ∧ avg_angle ≤ 12 then
      ⟨some (round_real 1 avg_angle), 75, Status.warning, "Acceptable taper"⟩
    else ⟨some (round_real 1 avg_angle), 50, Status.error, "Taper needs adjustment"⟩

/-- The `smoothness` expression of `calculate_finish_line`:
`1 - (np.std(edges) / np.mean(edges)) if np.mean(edges) > 0 else 0`.
An empty edge list gives NaN for the mean, `nan > 0` is false, hence `0`. -/
noncomputable def finish_smoothness (edges : List ℝ) : ℝ :=
  match np_mean edges with
  | none => 0
  | some m => if 0 < m then 1 - np_std edges / m else 0

/-- `calculate_finish_line` (src/main.py lines 77-86):
`clarity = min(100, max(0, int(smoothness * 100)))`, thresholds 80 and 60. -/
noncomputable def calculate_finish_line (mesh : Mesh) : FinishLineResult :=
  let edges : List ℝ := mesh.edges_unique_length.map (fun q : ℚ => (q : ℝ))
  let clarity : ℤ := min 100 (max 0 (trunc_int (finish_smoothness edges * 100)))
  if 80 ≤ clarity then ⟨clarity, 95, Status.success, "Clear margin"⟩
  else if 60 ≤ clarity then ⟨clarity, 70, Status.warning, "Margin needs refinement"⟩
  else ⟨clarity, 40, Status.error, "Unclear margin"⟩

/-- The metric pipeline of `analyze` (src/main.py lines 37-51).  The score
sum is at most 400, so the source's `int((... ) / 4)` over exact float
division is floor division, i.e. natural division here. -/
noncomputable def analyze (mesh : Mesh) : AnalysisReport :=
  let convergence := calculate_convergence mesh
  let occlusal := calculate_occlusal_reduction mesh
  let finish_line := calculate_finish_line mesh
  let undercuts := detect_undercuts mesh
  { score := (convergence.score + occlusal.score + finish_line.score + undercuts.score) / 4
    convergence := convergence
    occlusalReduction := occlusal
    finishLine := finish_line
    undercuts := undercuts }

/-- Modelled from the spec wording of the finish-line metric, for refinement
comparison only: `clarity = round(smoothness * 100)` clamped to [0, 100].
The source instead truncates with `int(smoothness * 100)`. -/
noncomputable def finish_line_clarity_spec (edges : List ℚ) : ℤ :=
  min 100 (max 0 (round (finish_smoothness (edges.map (fun q : ℚ => (q : ℝ))) * 100)))

/-- A bounding box of height 1.497, inside [1.495, 1.5). -/
def mesh_c10_occ : Mesh := ⟨[], ⟨0, 0, 0⟩, ⟨0, 0, 1497/1000⟩, []⟩

/-- 163 vertical normals and 16 horizontal ones: the average angle is
16 * 90 / 179 = 1440/179 degrees, inside (8, 8.05). -/
def mesh_c10_conv : Mesh :=
  ⟨List.replicate 163 ⟨0, 0, 1⟩ ++ List.replicate 16 ⟨1, 0, 0⟩, ⟨0, 0, 0⟩, ⟨0, 0, 0⟩, []⟩

/-- A one-face mesh with a vertical normal, used as concrete witness input. -/
def mesh_vertical : Mesh := ⟨[⟨0, 0, 1⟩], ⟨0, 0, 0⟩, ⟨0, 0, 2⟩, [1, 1]⟩

/-- A zero-face mesh (empty normal list, empty edge list). -/
def mesh_empty : Mesh := ⟨[], ⟨0, 0, 0⟩, ⟨0, 0, 0⟩, []⟩

section Lemmas

lemma np_mean_of_ne_nil (xs : List ℝ) (h : xs ≠ []) :
    np_mean xs = some (xs.sum / xs.length) := by
  unfold np_mean
  rw [if_neg (by simpa using h)]

lemma face_angle_one : face_angle 1 = 0 := by
  unfold face_angle np_clip
  rw [show min (1:ℝ) (max (-1) 1) = 1 by norm_num, Real.arccos_one]

lemma face_angle_zero : face_angle 0 = Real.pi / 2 := by
  unfold face_angle np_clip
  rw [show min (1:ℝ) (max (-1) 0) = 0 by norm_num, Real.arccos_zero]

lemma calculate_convergence_of_ne_nil (mesh : Mesh) (h : mesh.face_normals ≠ []) :
    calculate_convergence mesh =
      (if 4 ≤ avg_angle_deg mesh.face_normals ∧ avg_angle_deg mesh.face_normals ≤ 8 then
        ⟨some (round_real 1 (avg_angle_deg mesh.face_normals)), 95, Status.success,
          "Ideal taper angle"⟩
      else if 2 ≤ avg_angle_deg mesh.face_normals ∧ avg_angle_deg mesh.face_normals ≤ 12 then
        ⟨some (round_real 1 (avg_angle_deg mesh.face_normals)), 75, Status.warning,
          "Acceptable taper"⟩
      else
        ⟨some (round_real 1 (avg_angle_deg mesh.face_normals)), 50, Status.error,
          "Taper needs adjustment"⟩) := by
  unfold calculate_convergence
  rw [np_mean_of_ne_nil _ (by simpa using h)]
  have hlen : ((mesh.face_normals.map (fun n => face_angle (n.z : ℝ))).length : ℝ)
      = (mesh.face_normals.length : ℝ) := by
    rw [List.length_map]
  unfold avg_angle_deg
  rw [hlen]

end Lemmas

lemma avg_angle_deg_of_vertical (ns : List Vec3) (hall : ∀ v ∈ ns, v = ⟨0, 0, 1⟩) :
    avg_angle_deg ns = 0 := by
  unfold avg_angle_deg
  have hmap : ns.map (fun n => face_angle (n.z : ℝ)) = List.replicate ns.length 0 := by
    apply List.eq_replicate_iff.mpr
    refine ⟨by rw [List.length_map], ?_⟩
    intro b hb
    rcases List.mem_map.mp hb with ⟨v, hv, rfl⟩
    rw [hall v hv]
    simpa using face_angle_one
  rw [hmap, List.sum_replicate]
  simp

lemma convergence_score_le (mesh : Mesh) : (calculate_convergence mesh).score ≤ 100 := by
  unfold calculate_convergence
  cases np_mean (mesh.face_normals.map fun n => face_angle (n.z : ℝ)) with
  | none => norm_num
  | some m =>
    dsimp only
    split_ifs <;> norm_num

lemma occlusal_score_le (mesh : Mesh) : (calculate_occlusal_reduction mesh).score ≤ 100 := by
  unfold calculate_occlusal_reduction
  dsimp only
  split_ifs <;> norm_num

lemma finish_line_score_le (mesh : Mesh) : (calculate_finish_line mesh).score ≤ 100 := by
  unfold calculate_finish_line
  dsimp only
  split_ifs <;> norm_num

lemma undercuts_score_le (mesh : Mesh) : (detect_undercuts mesh).score ≤ 100 := by
  unfold detect_undercuts
  dsimp only
  split_ifs <;> norm_num

/-- C1: the spec demands that a zero-face mesh raise `InvalidMeshError`
before any metric result is produced.  The source has no such error path:
on an empty face-normal list `calculate_convergence` silently returns the
final classification (the NaN mean fails both range tests) with a NaN value
field, and `detect_undercuts` returns a full success result.  This theorem
evaluates the code at the failing input and exhibits both returned
reports. -/
theorem c1_zero_faces_yields_report :
    calculate_convergence mesh_empty =
      ⟨none, 50, Status.error, "Taper needs adjustment"⟩ ∧
    detect_undercuts mesh_empty =
      ⟨false, 0, 100, Status.success, "No undercuts"⟩ := by
  constructor
  · unfold calculate_convergence mesh_empty np_mean
    simp
  · norm_num [detect_undercuts, undercut_count, mesh_empty]

/-- C4: for every non-empty list of face normals, `detect_undercuts` counts
the faces whose dot product with (0,0,1) is below -0.1 and classifies:
zero such faces gives detected=false, depth 0, score 100, success; a
positive count with ratio below 0.05 gives detected=true, depth 0.2, score
70, warning; ratio at least 0.05 gives detected=true, depth 0.5, score 40,
error. -/
theorem c4_undercut_classification (mesh : Mesh) (h : mesh.face_normals ≠ []) :
    (undercut_count mesh.face_normals = 0 →
      detect_undercuts mesh = ⟨false, 0, 100, Status.success, "No undercuts"⟩) ∧
    (0 < undercut_count mesh.face_normals →
      (undercut_count mesh.face_normals : ℚ) / (mesh.face_normals.length : ℚ) < 1/20 →
      detect_undercuts mesh = ⟨true, 1/5, 70, Status.warning, "Minor undercuts"⟩) ∧
    (1/20 ≤ (undercut_count mesh.face_normals : ℚ) / (mesh.face_normals.length : ℚ) →
      detect_undercuts mesh = ⟨true, 1/2, 40, Status.error, "Significant undercuts"⟩) := by
  have hn : 0 < mesh.face_normals.length := List.length_pos.mpr h
  have hnq : (0 : ℚ) < (mesh.face_normals.length : ℚ) := by exact_mod_cast hn
  unfold detect_undercuts
  refine ⟨?_, ?_, ?_⟩
  · intro h0
    rw [if_pos h0]
  · intro hpos hr
    rw [div_lt_iff₀ hnq] at hr
    rw [if_neg (by omega : ¬ undercut_count mesh.face_normals = 0),
      if_pos (by linarith : (undercut_count mesh.face_normals : ℚ)
        < (mesh.face_normals.length : ℚ) * (1/20))]
  · intro hge
    rw [le_div_iff₀ hnq] at hge
    have hge' : (mesh.face_normals.length : ℚ) * (1/20)
        ≤ (undercut_count mesh.face_normals : ℚ) := by linarith
    have hpos : ¬ undercut_count mesh.face_normals = 0 := by
      intro h0
      rw [h0] at hge'
      simp only [Nat.cast_zero] at hge'
      nlinarith
    rw [if_neg hpos, if_neg (not_lt.mpr hge')]

/-- Concrete application of the C4 theorem: a single vertical normal has no
undercut face, so the engine reports no undercuts with score 100. -/
theorem c4_undercut_witness :
    mesh_vertical.face_normals ≠ [] ∧
    detect_undercuts mesh_vertical =
      ⟨false, 0, 100, Status.success, "No undercuts"⟩ :=
  ⟨by simp [mesh_vertical], (c4_undercut_classification mesh_vertical (by simp [mesh_vertical])).1
    (by norm_num [undercut_count, mesh_vertical])⟩

/-- C5: for every non-empty list of face normals, `calculate_convergence`
averages the arccos of the clamped vertical dot products, converts to
degrees, and classifies with inclusive bounds checked in order (4..8 gives
95/success, then 2..12 gives 75/warning, otherwise 50/error); all-vertical
normals give average 0 hence 50/error, and an average of exactly 6 degrees
gives 95/success. -/
theorem c5_convergence_classification (mesh : Mesh) (h : mesh.face_normals ≠ []) :
    (calculate_convergence mesh).value
        = some (round_real 1 (avg_angle_deg mesh.face_normals)) ∧
    (4 ≤ avg_angle_deg mesh.face_normals ∧ avg_angle_deg mesh.face_normals ≤ 8 →
      calculate_convergence mesh =
        ⟨some (round_real 1 (avg_angle_deg mesh.face_normals)), 95, Status.success,
          "Ideal taper angle"⟩) ∧
    (¬(4 ≤ avg_angle_deg mesh.face_normals ∧ avg_angle_deg mesh.face_normals ≤ 8) →
      2 ≤ avg_angle_deg mesh.face_normals ∧ avg_angle_deg mesh.face_normals ≤ 12 →
      calculate_convergence mesh =
        ⟨some (round_real 1 (avg_angle_deg mesh.face_normals)), 75, Status.warning,
          "Acceptable taper"⟩) ∧
    (¬(2 ≤ avg_angle_deg mesh.face_normals ∧ avg_angle_deg mesh.face_normals ≤ 12) →
      calculate_convergence mesh =
        ⟨some (round_real 1 (avg_angle_deg mesh.face_normals)), 50, Status.error,
          "Taper needs adjustment"⟩) ∧
    ((∀ v ∈ mesh.face_normals, v = ⟨0, 0, 1⟩) →
      calculate_convergence mesh = ⟨some 0, 50, Status.error, "Taper needs adjustment"⟩) ∧
    (avg_angle_deg mesh.face_normals = 6 →
      calculate_convergence mesh = ⟨some 6, 95, Status.success, "Ideal taper angle"⟩) := by
  rw [calculate_convergence_of_ne_nil mesh h]
  split_ifs with h1 h2
  · refine ⟨rfl, fun _ => rfl, ?_, ?_, ?_, ?_⟩
    · intro hc _; exact absurd h1 hc
    · intro hc
      exact absurd ⟨le_trans (by norm_num) h1.1, le_trans h1.2 (by norm_num)⟩ hc
    · intro hv
      rw [avg_angle_deg_of_vertical _ hv] at h1
      exact absurd h1.1 (by norm_num)
    · intro h6
      rw [h6]
      norm_num [round_real, round_eq, ConvergenceResult.mk.injEq]
  · refine ⟨rfl, ?_, fun _ _ => rfl, ?_, ?_, ?_⟩
    · intro hc; exact absurd hc h1
    · intro hc; exact absurd h2 hc
    · intro hv
      rw [avg_angle_deg_of_vertical _ hv] at h2
      exact absurd h2.1 (by norm_num)
    · intro h6
      exfalso
      rw [h6] at h1
      exact h1 (by norm_num)
  · refine ⟨rfl, ?_, ?_, fun _ => rfl, ?_, ?_⟩
    · intro hc; exact absurd hc h1
    · intro _ hc; exact absurd hc h2
    · intro hv
      rw [avg_angle_deg_of_vertical _ hv]
      norm_num [round_real, round_eq, ConvergenceResult.mk.injEq]
    · intro h6
      exfalso
      rw [h6] at h2
      exact h2 (by norm_num)

/-- Concrete application of the C5 theorem: the one-face mesh with a vertical
normal has average angle 0 and classifies as error with score 50. -/
theorem c5_convergence_witness :
    mesh_vertical.face_normals ≠ [] ∧
    calculate_convergence mesh_vertical =
      ⟨some 0, 50, Status.error, "Taper needs adjustment"⟩ :=
  ⟨by simp [mesh_vertical],
    ((c5_convergence_classification mesh_vertical (by simp [mesh_vertical])).2.2.2.2.1)
      (by simp [mesh_vertical])⟩

/-- C2: the aggregate score of `analyze` is the truncating integer division
of the four component scores by 4, and lies in [0, 100]. -/
theorem c2_aggregate_score (mesh : Mesh) :
    (analyze mesh).score =
      ((calculate_convergence mesh).score + (calculate_occlusal_reduction mesh).score +
        (calculate_finish_line mesh).score + (detect_undercuts mesh).score) / 4 ∧
    0 ≤ (analyze mesh).score ∧ (analyze mesh).score ≤ 100 := by
  have h1 := convergence_score_le mesh
  have h2 := occlusal_score_le mesh
  have h3 := finish_line_score_le mesh
  have h4 := undercuts_score_le mesh
  have e : (analyze mesh).score =
      ((calculate_convergence mesh).score + (calculate_occlusal_reduction mesh).score +
        (calculate_finish_line mesh).score + (detect_undercuts mesh).score) / 4 := rfl
  refine ⟨e, Nat.zero_le _, ?_⟩
  rw [e]
  omega

/-- C9: every metric result is one of a fixed finite set of
(score, status, message) combinations; scores come from
{40, 50, 70, 75, 95, 100}, statuses from {success, warning, error}, and
within each metric the listed triples pair each score with exactly one
status and message. -/
theorem c9_fixed_result_sets (mesh : Mesh) :
    ((calculate_convergence mesh).score, (calculate_convergence mesh).status,
        (calculate_convergence mesh).message) ∈
      [((95 : ℕ), Status.success, "Ideal taper angle"),
        (75, Status.warning, "Acceptable taper"),
        (50, Status.error, "Taper needs adjustment")] ∧
    ((calculate_occlusal_reduction mesh).score, (calculate_occlusal_reduction mesh).status,
        (calculate_occlusal_reduction mesh).message) ∈
      [((95 : ℕ), Status.success, "Adequate reduction"),
        (70, Status.warning, "Minimal reduction"),
        (40, Status.error, "Insufficient reduction")] ∧
    ((calculate_finish_line mesh).score, (calculate_finish_line mesh).status,
        (calculate_finish_line mesh).message) ∈
      [((95 : ℕ), Status.success, "Clear margin"),
        (70, Status.warning, "Margin needs refinement"),
        (40, Status.error, "Unclear margin")] ∧
    ((detect_undercuts mesh).detected, (detect_undercuts mesh).depth,
        (detect_undercuts mesh).score, (detect_undercuts mesh).status,
        (detect_undercuts mesh).message) ∈
      [(false, (0 : ℚ), (100 : ℕ), Status.success, "No undercuts"),
        (true, 1/5, 70, Status.warning, "Minor undercuts"),
        (true, 1/2, 40, Status.error, "Significant undercuts")] ∧
    (calculate_convergence mesh).score ∈ [40, 50, 70, 75, 95, 100] ∧
    (calculate_occlusal_reduction mesh).score ∈ [40, 50, 70, 75, 95, 100] ∧
    (calculate_finish_line mesh).score ∈ [40, 50, 70, 75, 95, 100] ∧
    (detect_undercuts mesh).score ∈ [40, 50, 70, 75, 95, 100] := by
  have hconv : ((calculate_convergence mesh).score, (calculate_convergence mesh).status,
      (calculate_convergence mesh).message) ∈
        [((95 : ℕ), Status.success, "Ideal taper angle"),
          (75, Status.warning, "Acceptable taper"),
          (50, Status.error, "Taper needs adjustment")] := by
    unfold calculate_convergence
    cases np_mean (mesh.face_normals.map fun n => face_angle (n.z : ℝ)) with
    | none => simp
    | some m =>
      dsimp only
      split_ifs <;> simp
  have hocc : ((calculate_occlusal_reduction mesh).score,
      (calculate_occlusal_reduction mesh).status,
      (calculate_occlusal_reduction mesh).message) ∈
        [((95 : ℕ), Status.success, "Adequate reduction"),
          (70, Status.warning, "Minimal reduction"),
          (40, Status.error, "Insufficient reduction")] := by
    unfold calculate_occlusal_reduction
    dsimp only
    split_ifs <;> simp
  have hfin : ((calculate_finish_line mesh).score, (calculate_finish_line mesh).status,
      (calculate_finish_line mesh).message) ∈
        [((95 : ℕ), Status.success, "Clear margin"),
          (70, Status.warning, "Margin needs refinement"),
          (40, Status.error, "Unclear margin")] := by
    unfold calculate_finish_line
    dsimp only
    split_ifs <;> simp
  have hund : ((detect_undercuts mesh).detected, (detect_undercuts mesh).depth,
      (detect_undercuts mesh).score, (detect_undercuts mesh).status,
      (detect_undercuts mesh).message) ∈
        [(false, (0 : ℚ), (100 : ℕ), Status.success, "No undercuts"),
          (true, 1/5, 70, Status.warning, "Minor undercuts"),
          (true, 1/2, 40, Status.error, "Significant undercuts")] := by
    unfold detect_undercuts
    dsimp only
    split_ifs <;> simp
  refine ⟨hconv, hocc, hfin, hund, ?_, ?_, ?_, ?_⟩
  · simp only [List.mem_cons, List.not_mem_nil, or_false, Prod.mk.injEq] at hconv
    rcases hconv with ⟨h, _⟩ | ⟨h, _⟩ | ⟨h, _⟩ <;> simp [h]
  · simp only [List.mem_cons, List.not_mem_nil, or_false, Prod.mk.injEq] at hocc
    rcases hocc with ⟨h, _⟩ | ⟨h, _⟩ | ⟨h, _⟩ <;> simp [h]
  · simp only [List.mem_cons, List.not_mem_nil, or_false, Prod.mk.injEq] at hfin
    rcases hfin with ⟨h, _⟩ | ⟨h, _⟩ | ⟨h, _⟩ <;> simp [h]
  · simp only [List.mem_cons, List.not_mem_nil, or_false, Prod.mk.injEq] at hund
    rcases hund with ⟨_, _, h, _, _⟩ | ⟨_, _, h, _, _⟩ | ⟨_, _, h, _, _⟩ <;> simp [h]

/-- C6: `calculate_occlusal_reduction` computes height as the difference of
the bounding-box z-coordinates, classifies with inclusive lower bounds
(1.5 then 1.0, highest threshold first), sends any degenerate height at or
below zero to the score-40 error bucket without failing, and in particular
maps heights 2.0, 1.2 and 0.5 to scores 95, 70 and 40. -/
theorem c6_occlusal_classification (mesh : Mesh) :
    (calculate_occlusal_reduction mesh).value
        = round_to 2 (mesh.bounds_max.z - mesh.bounds_min.z) ∧
    (3/2 ≤ mesh.bounds_max.z - mesh.bounds_min.z →
      calculate_occlusal_reduction mesh =
        ⟨round_to 2 (mesh.bounds_max.z - mesh.bounds_min.z), 95, Status.success,
          "Adequate reduction"⟩) ∧
    (1 ≤ mesh.bounds_max.z - mesh.bounds_min.z →
      mesh.bounds_max.z - mesh.bounds_min.z < 3/2 →
      calculate_occlusal_reduction mesh =
        ⟨round_to 2 (mesh.bounds_max.z - mesh.bounds_min.z), 70, Status.warning,
          "Minimal reduction"⟩) ∧
    (mesh.bounds_max.z - mesh.bounds_min.z < 1 →
      calculate_occlusal_reduction mesh =
        ⟨round_to 2 (mesh.bounds_max.z - mesh.bounds_min.z), 40, Status.error,
          "Insufficient reduction"⟩) ∧
    (mesh.bounds_max.z - mesh.bounds_min.z ≤ 0 →
      (calculate_occlusal_reduction mesh).score = 40 ∧
      (calculate_occlusal_reduction mesh).status = Status.error) ∧
    (mesh.bounds_max.z - mesh.bounds_min.z = 2 →
      calculate_occlusal_reduction mesh = ⟨2, 95, Status.success, "Adequate reduction"⟩) ∧
    (mesh.bounds_max.z - mesh.bounds_min.z = 6/5 →
      calculate_occlusal_reduction mesh = ⟨6/5, 70, Status.warning, "Minimal reduction"⟩) ∧
    (mesh.bounds_max.z - mesh.bounds_min.z = 1/2 →
      calculate_occlusal_reduction mesh = ⟨1/2, 40, Status.error, "Insufficient reduction"⟩) := by
  unfold calculate_occlusal_reduction
  dsimp only
  split_ifs with h1 h2
  · refine ⟨rfl, fun _ => rfl, ?_, ?_, ?_, ?_, ?_, ?_⟩
    · intro _ hc; exact absurd h1 (not_le.mpr hc)
    · intro hc; exact absurd h1 (not_le.mpr (by linarith))
    · intro hc; exact absurd h1 (not_le.mpr (by linarith))
    · intro he; rw [he]; norm_num [round_to, round_eq]
    · intro he; exact absurd h1 (by rw [he]; norm_num)
    · intro he; exact absurd h1 (by rw [he]; norm_num)
  · refine ⟨rfl, ?_, fun _ _ => rfl, ?_, ?_, ?_, ?_, ?_⟩
    · intro hc; exact absurd hc h1
    · intro hc; exact absurd h2 (not_le.mpr hc)
    · intro hc; exact absurd h2 (not_le.mpr (by linarith))
    · intro he; exact absurd he (by intro he; exact h1 (by rw [he]; norm_num))
    · intro he; rw [he]; norm_num [round_to, round_eq]
    · intro he; exact absurd h2 (by rw [he]; norm_num)
  · refine ⟨rfl, ?_, ?_, fun _ => rfl, ?_, ?_, ?_, ?_⟩
    · intro hc; exact absurd hc h1
    · intro hc _; exact absurd hc h2
    · intro _; exact ⟨rfl, rfl⟩
    · intro he; exact absurd he (by intro he; exact h1 (by rw [he]; norm_num))
    · intro he; exact absurd he (by intro he; exact h2 (by rw [he]; norm_num))
    · intro he; rw [he]; norm_num [round_to, round_eq]

lemma finish_smoothness_pos (xs : List ℝ) (m : ℝ) (hm : np_mean xs = some m)
    (h : 0 < m) : finish_smoothness xs = 1 - np_std xs / m := by
  unfold finish_smoothness
  rw [hm]
  dsimp only
  rw [if_pos h]

lemma finish_smoothness_nonpos (xs : List ℝ) (m : ℝ) (hm : np_mean xs = some m)
    (h : ¬ 0 < m) : finish_smoothness xs = 0 := by
  unfold finish_smoothness
  rw [hm]
  dsimp only
  rw [if_neg h]

lemma np_std_pair : np_std [(1 : ℝ), 2] = 1/2 := by
  unfold np_std
  have h14 : Real.sqrt ((1 : ℝ)/4) = 1/2 := by
    rw [show (1/4 : ℝ) = (1/2) ^ 2 by norm_num, Real.sqrt_sq (by norm_num : (0:ℝ) ≤ 1/2)]
  convert h14 using 2
  norm_num

lemma finish_smoothness_pair : finish_smoothness [(1 : ℝ), 2] = 2/3 := by
  have hm : np_mean [(1 : ℝ), 2] = some (3/2) := by
    rw [np_mean_of_ne_nil _ (by simp)]
    norm_num
  rw [finish_smoothness_pos _ (3/2) hm (by norm_num), np_std_pair]
  norm_num

lemma trunc_int_c3 : trunc_int ((2 : ℝ)/3 * 100) = 66 := by
  unfold trunc_int
  rw [if_pos (by norm_num : (0:ℝ) ≤ 2/3 * 100),
    show (2 : ℝ)/3 * 100 = 200/3 by norm_num,
    show ⌊(200 : ℝ)/3⌋ = 66 from Int.floor_eq_iff.mpr ⟨by norm_num, by norm_num⟩]

lemma round_c3 : round ((2 : ℝ)/3 * 100) = 67 := by
  rw [round_eq, show (2 : ℝ)/3 * 100 + 1/2 = 403/6 by norm_num]
  exact Int.floor_eq_iff.mpr ⟨by norm_num, by norm_num⟩

lemma edges_cast_pair :
    (([1, 2] : List ℚ)).map (fun q : ℚ => (q : ℝ)) = [(1 : ℝ), 2] := by
  norm_num

/-- The claim C3 fails at the edge set {1, 2}: the source computes clarity
with Python `int` truncation, giving 66, while the claimed `round` formula
gives 67. -/
theorem c3_round_vs_trunc_counterexample :
    (calculate_finish_line (Mesh.mk [] ⟨0, 0, 0⟩ ⟨0, 0, 0⟩ [1, 2])).clarity = 66 ∧
    finish_line_clarity_spec [1, 2] = 67 ∧
    (calculate_finish_line (Mesh.mk [] ⟨0, 0, 0⟩ ⟨0, 0, 0⟩ [1, 2])).clarity ≠
      finish_line_clarity_spec [1, 2] := by
  have hcode : (calculate_finish_line (Mesh.mk [] ⟨0, 0, 0⟩ ⟨0, 0, 0⟩ [1, 2])).clarity = 66 := by
    unfold calculate_finish_line
    dsimp only
    rw [edges_cast_pair, finish_smoothness_pair, trunc_int_c3]
    norm_num
  have hspec : finish_line_clarity_spec [1, 2] = 67 := by
    unfold finish_line_clarity_spec
    rw [edges_cast_pair, finish_smoothness_pair, round_c3]
    norm_num
  exact ⟨hcode, hspec, by rw [hcode, hspec]; norm_num⟩

lemma finish_smoothness_replicate (k : ℕ) (e : ℝ) (he : 0 < e) :
    finish_smoothness (List.replicate (k + 1) e) = 1 := by
  have hk : ((k : ℝ) + 1) ≠ 0 := by positivity
  have hmean : np_mean (List.replicate (k + 1) e) = some e := by
    rw [np_mean_of_ne_nil _ (by simp)]
    congr 1
    rw [List.sum_replicate, List.length_replicate, nsmul_eq_mul]
    push_cast
    field_simp
  have hstd : np_std (List.replicate (k + 1) e) = 0 := by
    unfold np_std
    have hz : (List.replicate (k + 1) e).map
        (fun x => (x - (List.replicate (k + 1) e).sum /
          ((List.replicate (k + 1) e).length : ℝ)) ^ 2) = List.replicate (k + 1) 0 := by
      rw [List.map_replicate, List.sum_replicate, List.length_replicate, nsmul_eq_mul]
      congr 1
      push_cast
      field_simp
    rw [hz, List.sum_replicate, smul_zero, zero_div, Real.sqrt_zero]
  rw [finish_smoothness_pos _ e hmean he, hstd, zero_div, sub_zero]

lemma trunc_int_hundred : trunc_int ((1 : ℝ) * 100) = 100 := by
  unfold trunc_int
  rw [if_pos (by norm_num : (0:ℝ) ≤ 1 * 100),
    show (1 : ℝ) * 100 = ((100 : ℤ) : ℝ) by norm_num, Int.floor_intCast]

lemma clarity_replicate (k : ℕ) (e : ℚ) (he : 0 < e) :
    min 100 (max 0 (trunc_int
      (finish_smoothness ((List.replicate (k + 1) e).map (fun q : ℚ => (q : ℝ))) * 100)))
      = 100 := by
  rw [List.map_replicate, finish_smoothness_replicate k (e : ℝ) (by exact_mod_cast he),
    trunc_int_hundred]
  norm_num

/-- C3 (amended): `calculate_finish_line` computes smoothness as
1 - stddev/mean when the mean of the edge lengths is positive and 0
otherwise, then clarity as the Python `int` truncation (not rounding) of
smoothness * 100 clamped to [0, 100]; classification is clarity at least 80
for 95/success, at least 60 for 70/warning, otherwise 40/error; uniform
positive edge lengths give clarity 100 and score 95/success. -/
theorem c3_finish_line_amended (mesh : Mesh) :
    (calculate_finish_line mesh).clarity =
      min 100 (max 0 (trunc_int
        (finish_smoothness (mesh.edges_unique_length.map (fun q : ℚ => (q : ℝ))) * 100))) ∧
    (∀ m : ℝ, np_mean (mesh.edges_unique_length.map (fun q : ℚ => (q : ℝ))) = some m →
      0 < m →
      finish_smoothness (mesh.edges_unique_length.map (fun q : ℚ => (q : ℝ)))
        = 1 - np_std (mesh.edges_unique_length.map (fun q : ℚ => (q : ℝ))) / m) ∧
    (∀ m : ℝ, np_mean (mesh.edges_unique_length.map (fun q : ℚ => (q : ℝ))) = some m →
      ¬ 0 < m →
      finish_smoothness (mesh.edges_unique_length.map (fun q : ℚ => (q : ℝ))) = 0) ∧
    0 ≤ (calculate_finish_line mesh).clarity ∧
    (calculate_finish_line mesh).clarity ≤ 100 ∧
    (80 ≤ (calculate_finish_line mesh).clarity →
      calculate_finish_line mesh =
        ⟨(calculate_finish_line mesh).clarity, 95, Status.success, "Clear margin"⟩) ∧
    (60 ≤ (calculate_finish_line mesh).clarity →
      (calculate_finish_line mesh).clarity < 80 →
      calculate_finish_line mesh =
        ⟨(calculate_finish_line mesh).clarity, 70, Status.warning,
          "Margin needs refinement"⟩) ∧
    ((calculate_finish_line mesh).clarity < 60 →
      calculate_finish_line mesh =
        ⟨(calculate_finish_line mesh).clarity, 40, Status.error, "Unclear margin"⟩) ∧
    (∀ (k : ℕ) (e : ℚ), 0 < e → mesh.edges_unique_length = List.replicate (k + 1) e →
      calculate_finish_line mesh = ⟨100, 95, Status.success, "Clear margin"⟩) := by
  have hsp := fun (m : ℝ) hm h =>
    finish_smoothness_pos (mesh.edges_unique_length.map (fun q : ℚ => (q : ℝ))) m hm h
  have hsn := fun (m : ℝ) hm h =>
    finish_smoothness_nonpos (mesh.edges_unique_length.map (fun q : ℚ => (q : ℝ))) m hm h
  unfold calculate_finish_line
  dsimp only
  split_ifs with h1 h2
  · refine ⟨rfl, hsp, hsn, le_min (by norm_num) (le_max_left _ _), min_le_left _ _,
      fun _ => rfl, ?_, ?_, ?_⟩
    · intro _ hlt; exact absurd h1 (not_le.mpr hlt)
    · intro hlt
      exact absurd h1 (not_le.mpr (lt_of_lt_of_le hlt (by norm_num)))
    · intro k e he hrep
      rw [hrep, clarity_replicate k e he]
  · refine ⟨rfl, hsp, hsn, le_min (by norm_num) (le_max_left _ _), min_le_left _ _,
      ?_, fun _ _ => rfl, ?_, ?_⟩
    · intro hc; exact absurd hc h1
    · intro hlt; exact absurd h2 (not_le.mpr hlt)
    · intro k e he hrep
      exact absurd (by rw [hrep, clarity_replicate k e he]; norm_num) h1
  · refine ⟨rfl, hsp, hsn, le_min (by norm_num) (le_max_left _ _), min_le_left _ _,
      ?_, ?_, fun _ => rfl, ?_⟩
    · intro hc; exact absurd hc h1
    · intro hc _; exact absurd hc h2
    · intro k e he hrep
      exact absurd (by rw [hrep, clarity_replicate k e he]; norm_num) h1

/-- C8: the engine is a pure function of the mesh: two meshes that agree on
face normals, bounds and edge lengths produce equal reports, and invoking
`analyze` twice on the same mesh gives the identical report; no hidden state
influences the result. -/
theorem c8_deterministic_stateless (m1 m2 : Mesh)
    (hn : m1.face_normals = m2.face_normals)
    (hmin : m1.bounds_min = m2.bounds_min)
    (hmax : m1.bounds_max = m2.bounds_max)
    (he : m1.edges_unique_length = m2.edges_unique_length) :
    analyze m1 = analyze m2 ∧ analyze m1 = analyze m1 := by
  obtain ⟨n1, a1, b1, e1⟩ := m1
  obtain ⟨n2, a2, b2, e2⟩ := m2
  dsimp only at hn hmin hmax he
  subst hn hmin hmax he
  exact ⟨rfl, rfl⟩

/-- Concrete application of the C8 theorem at the empty mesh. -/
theorem c8_deterministic_witness :
    mesh_empty.face_normals = mesh_empty.face_normals ∧
    mesh_empty.bounds_min = mesh_empty.bounds_min ∧
    mesh_empty.bounds_max = mesh_empty.bounds_max ∧
    mesh_empty.edges_unique_length = mesh_empty.edges_unique_length ∧
    (analyze mesh_empty = analyze mesh_empty ∧ analyze mesh_empty = analyze mesh_empty) :=
  ⟨rfl, rfl, rfl, rfl, c8_deterministic_stateless mesh_empty mesh_empty rfl rfl rfl rfl⟩

lemma avg_angle_c10 : avg_angle_deg mesh_c10_conv.face_normals = 1440 / 179 := by
  unfold avg_angle_deg mesh_c10_conv
  simp only [List.map_append, List.map_replicate, List.sum_append, List.sum_replicate,
    List.length_append, List.length_replicate]
  norm_num [face_angle_one, face_angle_zero]
  field_simp
  ring

lemma round_real_c10 : round_real 1 ((1440 : ℝ) / 179) = 8 := by
  unfold round_real
  rw [round_eq, show (1440 : ℝ) / 179 * 10 ^ 1 + 1/2 = 28979 / 358 by norm_num,
    show ⌊(28979 : ℝ) / 358⌋ = 80 from Int.floor_eq_iff.mpr ⟨by norm_num, by norm_num⟩]
  norm_num

/-- C10: classification uses the exact metric value while the reported value
field is rounded, so the display can suggest a higher bucket: a bounding box
of height 1.497 reports value 1.5 yet classifies warning/70, and a normal
set with average angle 1440/179 (about 8.045 degrees, inside (8, 8.05))
reports value 8.0 yet classifies warning/75. -/
theorem c10_display_rounding :
    (1495 / 1000 : ℚ) ≤ mesh_c10_occ.bounds_max.z - mesh_c10_occ.bounds_min.z ∧
    mesh_c10_occ.bounds_max.z - mesh_c10_occ.bounds_min.z < 3/2 ∧
    calculate_occlusal_reduction mesh_c10_occ =
      ⟨3/2, 70, Status.warning, "Minimal reduction"⟩ ∧
    8 < avg_angle_deg mesh_c10_conv.face_normals ∧
    avg_angle_deg mesh_c10_conv.face_normals < 805 / 100 ∧
    calculate_convergence mesh_c10_conv =
      ⟨some 8, 75, Status.warning, "Acceptable taper"⟩ := by
  refine ⟨by norm_num [mesh_c10_occ], by norm_num [mesh_c10_occ], ?_, ?_, ?_, ?_⟩
  · norm_num [calculate_occlusal_reduction, mesh_c10_occ, round_to, round_eq]
  · rw [avg_angle_c10]; norm_num
  · rw [avg_angle_c10]; norm_num
  · rw [calculate_convergence_of_ne_nil mesh_c10_conv
        (List.length_pos.mp (by simp [mesh_c10_conv])),
      avg_angle_c10, if_neg (by norm_num), if_pos (by norm_num), round_real_c10]

/-- C7: the dot product is clamped into [-1, 1] before the inverse cosine,
so the arccos argument always lies in its domain; in particular the
floating-point-style input 1.0000001 is clamped to 1 and yields angle 0
rather than a domain error. -/
theorem c7_dot_product_clamped (d : ℝ) :
    -1 ≤ np_clip d (-1) 1 ∧ np_clip d (-1) 1 ≤ 1 ∧
    face_angle d = Real.arccos (np_clip d (-1) 1) ∧
    np_clip (10000001 / 10000000) (-1) 1 = 1 ∧
    face_angle (10000001 / 10000000) = 0 := by
  have hclip : np_clip (10000001 / 10000000 : ℝ) (-1) 1 = 1 := by
    unfold np_clip
    rw [show max (-1 : ℝ) (10000001 / 10000000) = 10000001 / 10000000 by
        rw [max_eq_right]; norm_num,
      min_eq_left (by norm_num)]
  refine ⟨?_, ?_, rfl, hclip, ?_⟩
  · unfold np_clip
    exact le_min (by norm_num) (le_max_left _ _)
  · unfold np_clip
    exact min_le_left _ _
  · unfold face_angle
    rw [hclip, Real.arccos_one]
